import Mathlib

/-!
# Verification of the JiZhang expense-tracking server

Shallow embedding of the core logic of `server.js` (and its extended
variant with the AI/heuristic parse route): the time-reconciliation
aggregation stage, the chat-id guard, list pagination, the category
classifier, the heuristic text extractor, `combineDateTime`,
`formatTimeLocal`, and the create / parse-and-create / patch routes.

Conventions of the embedding:
* A BSON/JS instant ("Date") is an `Int`, milliseconds since the Unix epoch.
* A JS `Date` object that may be invalid (`new Date("hello")`) is an
  `Option Int`, `none` standing for Invalid Date (NaN time value).
* JS numbers relevant here are modelled as `Rat` (the claims do not
  depend on binary floating-point rounding).
* Fallible route handlers return `Except`; the store is a `List Rec`
  and is returned unchanged on every error path, matching the fact that
  a thrown error reaches the route's catch before any write.
* MongoDB's `$dateFromString`/`$toDate` string parsing and V8's
  `new Date(string)` parsing are modelled on the subset of inputs the
  server manipulates: `YYYY-M-D H:MM` style strings and ISO-like
  `YYYY-M-D[ T]H:MM[:SS]` strings without a zone suffix; anything
  outside this subset parses to `none` (unparseable).  The host
  timezone of the node process is taken to be UTC (the docker default),
  so date-time strings without a zone parse as UTC.
* IANA timezone lookup is modelled by a fixed table of zone offsets in
  minutes; zones outside the table behave as invalid/unknown zones
  (`Intl` throws, `$dateFromString` hits `onError`), which is exactly
  the code path the spec's claims exercise.
-/

/-! ## Calendar arithmetic (proleptic Gregorian, Hinnant's algorithms) -/

/-- Leap-year test. -/
def isLeap (y : Nat) : Bool :=
  (y % 4 == 0 && y % 100 != 0) || y % 400 == 0

/-- Number of days in month `m` of year `y` (month is 1-based). -/
def daysInMonth (y m : Nat) : Nat :=
  if m == 2 then (if isLeap y then 29 else 28)
  else if m == 4 || m == 6 || m == 9 || m == 11 then 30
  else 31

/-- Days since 1970-01-01 of the civil date `y-m-d` (valid for `y ≥ 1`). -/
def daysFromCivil (y m d : Nat) : Int :=
  let yy := if m ≤ 2 then y - 1 else y
  let era := yy / 400
  let yoe := yy % 400
  let mp := if 2 < m then m - 3 else m + 9
  let doy := (153 * mp + 2) / 5 + (d - 1)
  let doe := yoe * 365 + yoe / 4 - yoe / 100 + doy
  (↑(era * 146097 + doe) : Int) - 719468

/-- Civil date `(y, m, d)` of a day count since 1970-01-01
(valid for dates at or after year 0; earlier inputs are clamped). -/
def civilFromDays (z : Int) : Nat × Nat × Nat :=
  let zn := (z + 719468).toNat
  let era := zn / 146097
  let doe := zn % 146097
  let yoe := (doe - doe / 1460 + doe / 36524 - doe / 146096) / 365
  let y := yoe + era * 400
  let doy := doe - (365 * yoe + yoe / 4 - yoe / 100)
  let mp := (5 * doy + 2) / 153
  let d := doy - (153 * mp + 2) / 5 + 1
  let m := if mp < 10 then mp + 3 else mp - 9
  (if m ≤ 2 then y + 1 else y, m, d)

/-- Epoch milliseconds of the UTC wall-clock `y-m-d h:mi`. -/
def epochMs (y m d h mi : Nat) : Int :=
  daysFromCivil y m d * 86400000 + (↑(h * 3600000 + mi * 60000) : Int)

/-- Offset east of UTC, in minutes, of the IANA zones the model knows.
Zones outside the table behave as unknown zone identifiers. -/
def tzOffsetMin (tz : String) : Option Int :=
  if tz = "Asia/Shanghai" then some 480
  else if tz = "UTC" then some 0
  else if tz = "Etc/UTC" then some 0
  else none

/-! ## Small string helpers -/

/-- Left-pad a numeral to two digits with `0`. -/
def pad2 (n : Nat) : String :=
  if n < 10 then "0" ++ toString n else toString n

/-- Left-pad a numeral to four digits with `0` (years here are 4-digit). -/
def pad4 (n : Nat) : String :=
  if n < 10 then "000" ++ toString n
  else if n < 100 then "00" ++ toString n
  else if n < 1000 then "0" ++ toString n
  else toString n

/-- Split a leading run of ASCII digits off a character list. -/
def splitDigits (cs : List Char) : List Char × List Char :=
  (cs.takeWhile Char.isDigit, cs.dropWhile Char.isDigit)

/-- Numeric value of a list of ASCII digits. -/
def natOfDigits (ds : List Char) : Nat :=
  ds.foldl (fun a c => a * 10 + (c.toNat - 48)) 0

/-- JS `String.prototype.includes`: substring containment. -/
def jsIncludes (hay sub : String) : Bool :=
  go sub.data hay.data
where
  go (sub : List Char) : List Char → Bool
  | [] => sub.isEmpty
  | c :: t => sub.isPrefixOf (c :: t) || go sub t

/-- JS `String.prototype.toLowerCase` on the relevant alphabet: ASCII
letters are lowercased, everything else (CJK in particular) unchanged.
(Modelled over the character list because `String.toLower` itself is not
kernel-reducible.) -/
def jsToLower (s : String) : String :=
  String.mk (s.data.map Char.toLower)

/-- Whitespace for JS `trim`. -/
def jsWs (c : Char) : Bool :=
  c == ' ' || c == '\t' || c == '\n' || c == '\r'

/-- JS `String.prototype.trim`: strip leading and trailing whitespace. -/
def jsTrim (s : String) : String :=
  String.mk (((s.data.dropWhile jsWs).reverse.dropWhile jsWs).reverse)

/-- JS `String.prototype.replace` with a one-character string pattern:
replaces only the first occurrence. -/
def jsReplaceFirst (s : String) (pat rep : Char) : String :=
  String.mk (go s.data)
where
  go : List Char → List Char
  | [] => []
  | c :: t => if c = pat then rep :: t else c :: go t

/-- JS `String.prototype.replace(",", "")`: drop the first comma. -/
def jsDropFirstComma (s : String) : String :=
  String.mk (go s.data)
where
  go : List Char → List Char
  | [] => []
  | c :: t => if c = ',' then t else c :: go t

/-! ## Date-string parsing -/

/-- Range-validate a civil date-time; mirrors the validation MongoDB and
V8 apply before accepting a parsed date. -/
def mkCivil (y m d h mi : Nat) : Option (Nat × Nat × Nat × Nat × Nat) :=
  if 1 ≤ m && m ≤ 12 && 1 ≤ d && d ≤ daysInMonth y m && h ≤ 23 && mi ≤ 59
  then some (y, m, d, h, mi)
  else none

/-- Parse a whole string of shape `YYYY<dsep>M<dsep>D<mid>H:MM`
(month, day, hour 1–2 digits; minutes exactly 2; year exactly 4), the
shape of the `%Y-%m-%d %H:%M` and `%Y/%m/%d, %H:%M` format strings used
with `$dateFromString`. -/
def parseYmdHm (dsep : Char) (mid : String) (s : String) :
    Option (Nat × Nat × Nat × Nat × Nat) :=
  let cs := s.data
  let (yd, r1) := splitDigits cs
  if yd.length ≠ 4 then none else
  match r1 with
  | [] => none
  | c :: r2 =>
    if c ≠ dsep then none else
    let (md, r3) := splitDigits r2
    if md.length = 0 || 2 < md.length then none else
    match r3 with
    | [] => none
    | c2 :: r4 =>
      if c2 ≠ dsep then none else
      let (dd, r5) := splitDigits r4
      if dd.length = 0 || 2 < dd.length then none else
      if mid.data.isPrefixOf r5 then
        let r6 := r5.drop mid.length
        let (hd, r7) := splitDigits r6
        if hd.length = 0 || 2 < hd.length then none else
        match r7 with
        | [] => none
        | c3 :: r8 =>
          if c3 ≠ ':' then none else
          let (mind, r9) := splitDigits r8
          if mind.length ≠ 2 || r9 ≠ [] then none else
          mkCivil (natOfDigits yd) (natOfDigits md) (natOfDigits dd)
            (natOfDigits hd) (natOfDigits mind)
      else none

/-- Parse an ISO-like string: `YYYY-M-D` alone, or `YYYY-M-D` followed by
`' '` or `'T'` and `H:MM` or `H:MM:SS`, with no zone suffix.  Returns the
civil fields plus seconds.  This is the modelled common subset of what
MongoDB's generic `$dateFromString`/`$toDate` and V8's `new Date(string)`
accept; strings outside the subset count as unparseable. -/
def parseIsoLike (s : String) : Option (Nat × Nat × Nat × Nat × Nat × Nat) :=
  let cs := s.data
  let (yd, r1) := splitDigits cs
  if yd.length ≠ 4 then none else
  match r1 with
  | [] => none
  | c :: r2 =>
    if c ≠ '-' then none else
    let (md, r3) := splitDigits r2
    if md.length = 0 || 2 < md.length then none else
    match r3 with
    | [] => none
    | c2 :: r4 =>
      if c2 ≠ '-' then none else
      let (dd, r5) := splitDigits r4
      if dd.length = 0 || 2 < dd.length then none else
      let y := natOfDigits yd
      let m := natOfDigits md
      let d := natOfDigits dd
      match r5 with
      | [] =>
        (mkCivil y m d 0 0).map (fun c => (c.1, c.2.1, c.2.2.1, 0, 0, 0))
      | c3 :: r6 =>
        if c3 ≠ ' ' && c3 ≠ 'T' then none else
        let (hd, r7) := splitDigits r6
        if hd.length = 0 || 2 < hd.length then none else
        match r7 with
        | [] => none
        | c4 :: r8 =>
          if c4 ≠ ':' then none else
          let (mind, r9) := splitDigits r8
          if mind.length ≠ 2 then none else
          let h := natOfDigits hd
          let mi := natOfDigits mind
          match r9 with
          | [] =>
            (mkCivil y m d h mi).map
              (fun c => (c.1, c.2.1, c.2.2.1, c.2.2.2.1, c.2.2.2.2, 0))
          | c5 :: r10 =>
            if c5 ≠ ':' then none else
            let (sd, r11) := splitDigits r10
            if sd.length ≠ 2 || r11 ≠ [] then none else
            let sec := natOfDigits sd
            if 59 < sec then none else
            (mkCivil y m d h mi).map
              (fun c => (c.1, c.2.1, c.2.2.1, c.2.2.2.1, c.2.2.2.2, sec))

/-- Epoch milliseconds of a parsed ISO-like tuple read as UTC wall clock. -/
def msOfIso (c : Nat × Nat × Nat × Nat × Nat × Nat) : Int :=
  epochMs c.1 c.2.1 c.2.2.1 c.2.2.2.1 c.2.2.2.2.1 + (↑(c.2.2.2.2.2 * 1000) : Int)

/-- `$dateFromString` with format `%Y-%m-%d %H:%M`, no timezone (UTC). -/
def dateFromFmt1 (s : String) : Option Int :=
  (parseYmdHm '-' " " s).map (fun c => epochMs c.1 c.2.1 c.2.2.1 c.2.2.2.1 c.2.2.2.2)

/-- `$dateFromString` with format `%Y/%m/%d, %H:%M`, no timezone (UTC). -/
def dateFromFmt2 (s : String) : Option Int :=
  (parseYmdHm '/' ", " s).map (fun c => epochMs c.1 c.2.1 c.2.2.1 c.2.2.2.1 c.2.2.2.2)

/-- `$dateFromString` with format `%Y-%m-%d %H:%M` and a `timezone`
argument: the string is wall-clock time in that zone.  An unknown zone
makes the operator error, which `onError: null` turns into `none`. -/
def dateFromFmt1Tz (s tz : String) : Option Int :=
  match tzOffsetMin tz with
  | none => none
  | some off =>
    (parseYmdHm '-' " " s).map
      (fun c => epochMs c.1 c.2.1 c.2.2.1 c.2.2.2.1 c.2.2.2.2 - off * 60000)

/-- Generic `$dateFromString` with a `timezone` argument (no `format`):
ISO-like parse interpreted in the zone; unknown zone or unparseable
string gives `none` (`onError: null`). -/
def dateFromGenericTz (s tz : String) : Option Int :=
  match tzOffsetMin tz with
  | none => none
  | some off => (parseIsoLike s).map (fun c => msOfIso c - off * 60000)

/-- `$toDate` applied to a string: ISO-like parse in UTC; **no** `onError`
is available, so an unparseable string makes the aggregation error.
Here `none` therefore means "the pipeline raises a conversion error". -/
def toDateString (s : String) : Option Int :=
  (parseIsoLike s).map msOfIso

/-- V8 `new Date(string)` on the modelled subset, host zone UTC:
`none` is JS Invalid Date (`new Date` never throws). -/
def jsDateParse (s : String) : Option Int :=
  (parseIsoLike s).map msOfIso

/-! ## The record model -/

/-- A BSON value in one of the fields the time-resolution stage inspects:
a date (instant), a string, or any other BSON type. -/
inductive BVal where
  | vDate (ms : Int)
  | vStr (s : String)
  | vOther
  deriving Repr, DecidableEq

/-- A persisted expense document.  `strict: false` means legacy documents
may omit any field, so every time-ish field is optional and typed
loosely (`BVal`).  `amount` is the schema-required numeric field. -/
structure Rec where
  amount : Rat
  category : Option String := none
  payee : Option String := none
  note : Option String := none
  source : Option String := none
  time : Option BVal := none
  chat_id : Option Int := none
  ts_utc : Option BVal := none
  time_local : Option BVal := none
  tz : Option String := none
  ym : Option String := none
  created_at_utc : Option BVal := none
  createdAt : Option BVal := none
  deriving Repr, DecidableEq

/-- The `_time` expression of `addParsedTimeStage`: the `$let`/`$switch`
that normalizes `_time` from `time`, `ts_utc`, `created_at_utc`,
`time_local`(+`tz`), `createdAt`.  `Except.error ()` models an
aggregation error (the `$toDate` branch has no `onError` and raises on a
string it cannot convert); `Except.ok none` is a null `_time`. -/
def resolveTime (r : Rec) : Except Unit (Option Int) :=
  let tz := r.tz.getD "Asia/Shanghai"
  match r.time with
  | some (BVal.vDate ms) => .ok (some ms)
  | some (BVal.vStr s) =>
    match dateFromFmt1 s with
    | some ms => .ok (some ms)
    | none =>
      match dateFromFmt2 s with
      | some ms => .ok (some ms)
      | none =>
        match toDateString s with
        | some ms => .ok (some ms)
        | none => .error ()
  | _ =>
    match r.ts_utc with
    | some (BVal.vDate ms) => .ok (some ms)
    | _ =>
      match r.created_at_utc with
      | some (BVal.vDate ms) => .ok (some ms)
      | _ =>
        match r.time_local with
        | some (BVal.vStr s) =>
          .ok (match dateFromFmt1Tz s tz with
               | some ms => some ms
               | none => dateFromGenericTz s tz)
        | _ =>
          match r.createdAt with
          | some (BVal.vDate ms) => .ok (some ms)
          | _ => .ok none

/-! ## Category classifier -/

/-- `CATEGORY_KEYWORDS` from the source, in `Object.entries` order. -/
def CATEGORY_KEYWORDS : List (String × List String) :=
  [("餐饮", ["麦当劳", "肯德基", "星巴克", "美团", "饿了么", "必胜客", "海底捞",
             "喜茶", "奶茶", "餐饮", "外卖", "饭", "午饭", "晚饭", "早餐", "火锅"]),
   ("购物", ["淘宝", "天猫", "京东", "拼多多", "超市", "沃尔玛", "山姆", "购物", "买菜"]),
   ("出行", ["滴滴", "高德", "打车", "共享单车", "地铁", "公交", "高速", "停车"]),
   ("数码", ["Apple", "苹果", "小米", "华为", "数码", "配件"]),
   ("娱乐", ["腾讯视频", "爱奇艺", "优酷", "B站", "QQ音乐", "网易云", "游戏", "会员", "电影"]),
   ("通讯", ["话费", "流量", "联通", "移动", "电信", "宽带"]),
   ("医疗", ["医院", "药店", "医保", "体检", "诊所"]),
   ("转账", ["转账", "收款", "还款", "红包", "待确认收款"]),
   ("生活缴费", ["水费", "电费", "燃气", "物业", "供暖", "生活缴费"])]

/-- `CATEGORY_PRIORITY` from the source. -/
def CATEGORY_PRIORITY : List String :=
  ["转账", "生活缴费", "出行", "餐饮", "购物", "数码", "娱乐", "通讯", "医疗"]

/-- The `hits` set of `guessCategory`, as a list in insertion
(`Object.entries`) order: categories one of whose keywords occurs in the
lowercased text. -/
def categoryHits (text : String) : List String :=
  CATEGORY_KEYWORDS.filterMap fun ck =>
    if ck.2.any (fun kw => jsIncludes text (jsToLower kw)) then some ck.1 else none

/-- `guessCategory(payee, note)` from the source. -/
def guessCategory (payee note : String) : String :=
  let text := jsToLower (payee ++ " " ++ note)
  let hits := categoryHits text
  match hits with
  | [] => if jsIncludes text "转账" || jsIncludes text "收款" then "转账" else "其他"
  | h :: _ =>
    match CATEGORY_PRIORITY.find? (fun c => hits.contains c) with
    | some c => c
    | none => h

/-! ## Heuristic field extractor (regex scanners)

Each JS regex of `parseTextHeuristic` is modelled by a leftmost scanner
that at each start position attempts the pattern with the same greedy /
backtracking behaviour the JS engine has on that pattern. -/

/-- `(-?\d+(?:[.,]\d+)?)`: the captured numeric token at this position. -/
def amountAt (cs : List Char) : Option String :=
  let core : List Char → Option (List Char) := fun cs =>
    let (int, rest) := splitDigits cs
    if int.isEmpty then none
    else
      match rest with
      | c :: t =>
        if c = '.' || c = ',' then
          let (fr, _) := splitDigits t
          if fr.isEmpty then some int else some (int ++ c :: fr)
        else some int
      | [] => some int
  match cs with
  | '-' :: t => (core t).map (fun ds => String.mk ('-' :: ds))
  | _ => (core cs).map String.mk

/-- Leftmost match of the amount pattern. -/
def findAmount : List Char → Option String
  | [] => none
  | c :: t =>
    match amountAt (c :: t) with
    | some s => some s
    | none => findAmount t

/-- `\d{1,2}:\d{2}` anchored at this position (greedy two-digit hour
first, then backtrack to one digit). -/
def hmAt (cs : List Char) : Option String :=
  match cs with
  | a :: b :: c :: d :: e :: _ =>
    if a.isDigit && b.isDigit && c == ':' && d.isDigit && e.isDigit then
      some (String.mk [a, b, c, d, e])
    else if a.isDigit && b == ':' && c.isDigit && d.isDigit then
      some (String.mk [a, b, c, d])
    else none
  | [a, b, c, d] =>
    if a.isDigit && b == ':' && c.isDigit && d.isDigit then
      some (String.mk [a, b, c, d])
    else none
  | _ => none

/-- Leftmost match of `\d{1,2}:\d{2}`. -/
def findHM : List Char → Option String
  | [] => none
  | c :: t =>
    match hmAt (c :: t) with
    | some s => some s
    | none => findHM t

/-- `\d{1,2}` at this position: candidate (token, rest) pairs in the
greedy engine's preference order (two digits first). -/
def d12 (cs : List Char) : List (List Char × List Char) :=
  match cs with
  | a :: b :: t =>
    if a.isDigit && b.isDigit then [([a, b], t), ([a], b :: t)]
    else if a.isDigit then [([a], b :: t)] else []
  | [a] => if a.isDigit then [([a], [])] else []
  | [] => []

/-- `\d{4}-\d{1,2}-\d{1,2}` anchored at this position: candidate
(capture, rest) pairs in preference order. -/
def ymdAt (cs : List Char) : List (List Char × List Char) :=
  match cs with
  | y1 :: y2 :: y3 :: y4 :: '-' :: r1 =>
    if y1.isDigit && y2.isDigit && y3.isDigit && y4.isDigit then
      (d12 r1).flatMap fun mc =>
        match mc.2 with
        | '-' :: r2 =>
          (d12 r2).map fun dc =>
            ([y1, y2, y3, y4, '-'] ++ mc.1 ++ '-' :: dc.1, dc.2)
        | _ => []
    else []
  | _ => []

/-- `(\d{4}-\d{1,2}-\d{1,2})[ T]?(\d{1,2}:\d{2})` anchored here: the two
captures, trying candidates in the engine's backtracking order. -/
def fullAt (cs : List Char) : Option (String × String) :=
  (ymdAt cs).firstM fun yc =>
    let rests :=
      match yc.2 with
      | c :: t => if c == ' ' || c == 'T' then [c :: t |>.drop 1, c :: t] else [c :: t]
      | [] => [([] : List Char)]
    rests.firstM fun r =>
      (hmAt r).map fun hm => (String.mk yc.1, hm)

/-- Leftmost match of the full date+time pattern. -/
def findFull : List Char → Option (String × String)
  | [] => none
  | c :: t =>
    match fullAt (c :: t) with
    | some p => some p
    | none => findFull t

/-- Leftmost match of the bare `\d{4}-\d{1,2}-\d{1,2}` pattern. -/
def findYMD : List Char → Option String
  | [] => none
  | c :: t =>
    match (ymdAt (c :: t)).head? with
    | some yc => some (String.mk yc.1)
    | none => findYMD t

/-- Is `c` in the CJK unified range `一`–`龥`? -/
def isCJK (c : Char) : Bool :=
  0x4e00 ≤ c.toNat && c.toNat ≤ 0x9fa5

/-- Character class `[一-龥A-Za-z0-9_\-·]`. -/
def payeeClass1 (c : Char) : Bool :=
  isCJK c || c.isAlpha || c.isDigit || c == '_' || c == '-' || c == '·'

/-- Character class `[一-龥A-Za-z]`. -/
def payeeClass2 (c : Char) : Bool :=
  isCJK c || c.isAlpha

/-- The marker characters `[在于去给向]`. -/
def payeeMarkers : List Char := ['在', '于', '去', '给', '向']

/-- `[在于去给向]([一-龥A-Za-z0-9_\-·]{2,20})`: leftmost match,
capture group 1. -/
def findPayeeMarked : List Char → Option String
  | [] => none
  | c :: t =>
    if payeeMarkers.contains c then
      let run := t.takeWhile payeeClass1
      if 2 ≤ run.length then some (String.mk (run.take 20))
      else findPayeeMarked t
    else findPayeeMarked t

/-- `([一-龥A-Za-z]{2,20})`: leftmost match, capture group 1. -/
def findPayeeFallback : List Char → Option String
  | [] => none
  | c :: t =>
    let run := (c :: t).takeWhile payeeClass2
    if 2 ≤ run.length then some (String.mk (run.take 20))
    else findPayeeFallback t

/-- The draft record produced by extraction: the shape
`{ amount, time, category, payee, note }`. -/
structure Draft where
  amount : Option Rat
  time : Option String
  category : String
  payee : String
  note : String
  deriving Repr, DecidableEq

/-- JS `Number(capture.replace(",", ""))` for a capture of the amount
pattern: sign, integer digits, optional fractional digits. -/
def numOfCapture (s : String) : Rat :=
  let go : List Char → Rat := fun cs =>
    let (int, rest) := splitDigits cs
    match rest with
    | '.' :: t =>
      let (fr, _) := splitDigits t
      Rat.ofScientific (natOfDigits (int ++ fr)) true fr.length
    | _ => (natOfDigits int : Rat)
  match s.data with
  | '-' :: t => -(go t)
  | cs => go cs

/-- `parseTextHeuristic(text)` from the source. -/
def parseTextHeuristic (text : String) : Draft :=
  let s := jsTrim text
  let cs := s.data
  let amount := (findAmount cs).map (fun cap => numOfCapture (jsDropFirstComma cap))
  let timeStr : Option String :=
    match findFull cs with
    | some p => some (p.1 ++ " " ++ p.2)
    | none =>
      match findYMD cs, findHM cs with
      | some ymd, some hm => some (ymd ++ " " ++ hm)
      | _, _ =>
        match findHM cs with
        | some hm => some hm
        | none => none
  let payee :=
    match findPayeeMarked cs with
    | some p => p
    | none =>
      match findPayeeFallback cs with
      | some p => p
      | none => ""
  let category := guessCategory payee s
  { amount := amount, time := timeStr, category := category, payee := payee, note := s }

/-! ## Write-side time helpers -/

/-- `formatTimeLocal(date, tz)`: format the instant as a
`YYYY-MM-DD HH:mm` wall-clock string in the zone; on an unknown zone the
`Intl` constructor throws and the catch falls back to formatting the UTC
fields with the same shape. -/
def formatTimeLocal (ms : Int) (tz : String) : String :=
  let shifted := match tzOffsetMin tz with
    | some off => ms + off * 60000
    | none => ms
  let c := civilFromDays (Int.ediv shifted 86400000)
  let rem := (Int.emod shifted 86400000).toNat
  pad4 c.1 ++ "-" ++ pad2 c.2.1 ++ "-" ++ pad2 c.2.2 ++ " " ++
    pad2 (rem / 3600000) ++ ":" ++ pad2 (rem % 3600000 / 60000)

/-- `time.toISOString().slice(0, 7)`: the `YYYY-MM` label of the
instant's UTC date. -/
def ymOf (ms : Int) : String :=
  let c := civilFromDays (Int.ediv ms 86400000)
  pad4 c.1 ++ "-" ++ pad2 c.2.1

/-- `^(\d{1,2}:\d{2})$`: the anchored bare time-of-day test of
`combineDateTime`. -/
def isBareHM (s : String) : Bool :=
  match s.data with
  | [a, b, c, d] => a.isDigit && b == ':' && c.isDigit && d.isDigit
  | [a, b, c, d, e] => a.isDigit && b.isDigit && c == ':' && d.isDigit && e.isDigit
  | _ => false

/-- "Today" as computed in a zone of offset `off` minutes at instant
`nowMs`: the `YYYY-MM-DD` string `combineDateTime` anchors a bare
`HH:MM` to (the `Intl.DateTimeFormat` date parts). -/
def todayInZone (nowMs off : Int) : String :=
  let c := civilFromDays (Int.ediv (nowMs + off * 60000) 86400000)
  pad4 c.1 ++ "-" ++ pad2 c.2.1 ++ "-" ++ pad2 c.2.2

/-- `combineDateTime(tz, timeStr)` from the source, with the current
instant `nowMs` passed explicitly.  The result is a JS `Date` value:
`some` an instant, or `none` for Invalid Date (`new Date` on an
unparseable string does **not** throw, so the catch that returns "now"
only fires when `Intl` rejects the zone in the bare-`HH:MM` branch). -/
def combineDateTime (nowMs : Int) (tz : String) (timeStr : String) : Option Int :=
  let tzIntl := if tz = "" then "Asia/Shanghai" else tz
  if timeStr = "" then some nowMs
  else if isBareHM timeStr then
    match tzOffsetMin tzIntl with
    | none => some nowMs
    | some off =>
      let localStr := todayInZone nowMs off ++ " " ++ timeStr
      jsDateParse (jsReplaceFirst localStr '/' '-')
  else jsDateParse (jsReplaceFirst timeStr '/' '-')

/-! ## Query pipeline (list and category summary) -/

/-- The enforced scope `CHAT_ID` and its JS truthiness: the guard stage is
only built when `CHAT_ID` is truthy (`0` and `null` disable it). -/
def chatGuardActive (cfg : Option Int) : Bool :=
  match cfg with
  | some c => c ≠ 0
  | none => false

/-- The `$match` of `chatGuardStage`: `chat_id` equals the enforced value
or the field is absent. -/
def chatGuardMatch (c : Int) (r : Rec) : Bool :=
  r.chat_id == some c || r.chat_id == none

/-- A record paired with its resolved `_time`. -/
abbrev Annotated := Rec × Option Int

/-- `addParsedTimeStage` applied to the whole collection: any document on
which the `_time` expression errors aborts the aggregation. -/
def annotate (store : List Rec) : Except Unit (List Annotated) :=
  store.mapM fun r => (resolveTime r).map fun t => (r, t)

/-- The `$match: { _time: bound }` stage: a null `_time` never satisfies
a `$gte`/`$lte` date bound (BSON null compares below dates). -/
def timeInRange (start stop : Option Int) (t : Option Int) : Bool :=
  match t with
  | none => start == none && stop == none
  | some v =>
    (match start with | some s => s ≤ v | none => true) &&
    (match stop with | some e => v ≤ e | none => true)

/-- Case-insensitive literal substring test of the free-text stage on one
optional field (a missing field never matches a regex). -/
def fieldMatches (q : String) (f : Option String) : Bool :=
  match f with
  | none => false
  | some s => jsIncludes (jsToLower s) (jsToLower q)

/-- The shared filter prefix of the list and category-summary pipelines:
chat guard (when active), ad-hoc `chat_id` match (when the request
supplies one), time-range match, and — for the list route — the
free-text `$or` match over payee/category/note (`q` empty disables it).
Both `GET /api/expenses` and `GET /api/stats/category` push exactly
these stages, in this order. -/
def pipelineMatched (cfg reqChat : Option Int) (start stop : Option Int)
    (q : String) (ann : List Annotated) : List Annotated :=
  let s1 := if chatGuardActive cfg then
      ann.filter fun p => chatGuardMatch (cfg.getD 0) p.1
    else ann
  let s2 := match reqChat with
    | some rc => s1.filter fun p => p.1.chat_id == some rc
    | none => s1
  let s3 := if start.isSome || stop.isSome then
      s2.filter fun p => timeInRange start stop p.2
    else s2
  if jsTrim q ≠ "" then
    s3.filter fun p =>
      fieldMatches (jsTrim q) p.1.payee || fieldMatches (jsTrim q) p.1.category ||
        fieldMatches (jsTrim q) p.1.note
  else s3

/-- Insert into a list sorted by `le` (used to model `$sort`). -/
def insertByLe {α : Type} (le : α → α → Bool) (x : α) : List α → List α
  | [] => [x]
  | y :: t => if le x y then x :: y :: t else y :: insertByLe le x t

/-- Insertion sort by `le` (used to model `$sort`). -/
def sortByLe {α : Type} (le : α → α → Bool) : List α → List α
  | [] => []
  | x :: t => insertByLe le x (sortByLe le (t))

/-- `$sort: { _time: -1 }` order on annotated records: descending by
`_time`, with a null `_time` last (BSON null sorts below dates); the
`_id: -1` tie-break is modelled by the sort's stability over equal keys. -/
def timeDescLe (a b : Annotated) : Bool :=
  match a.2, b.2 with
  | some x, some y => y ≤ x
  | some _, none => true
  | none, some _ => false
  | none, none => true

/-- The `$project` of the list route: the fields returned to the client,
with `time` replaced by the resolved `_time`. -/
structure ListItem where
  amount : Rat
  category : Option String
  payee : Option String
  note : Option String
  source : Option String
  chat_id : Option Int
  createdAt : Option BVal
  time : Option Int
  deriving Repr, DecidableEq

/-- Projection of one annotated record. -/
def projectItem (p : Annotated) : ListItem :=
  { amount := p.1.amount, category := p.1.category, payee := p.1.payee,
    note := p.1.note, source := p.1.source, chat_id := p.1.chat_id,
    createdAt := p.1.createdAt, time := p.2 }

/-- The response of `GET /api/expenses`. -/
structure ListResp where
  total : Nat
  page : Nat
  pages : Nat
  limit : Nat
  data : List ListItem
  deriving Repr, DecidableEq

/-- The request parameters of the list route after numeric parsing
(`page`/`limit` as parsed integers before clamping). -/
structure ListReq where
  page : Nat := 1
  limit : Nat := 50
  start : Option Int := none
  stop : Option Int := none
  q : String := ""
  chat_id : Option Int := none

/-- `GET /api/expenses`: clamp page and limit, run the pipeline
(`addParsedTimeStage`, guard, ad-hoc chat filter, range, free-text,
sort, project, facet with independent count), and shape the response. -/
def listExec (cfg : Option Int) (req : ListReq) (store : List Rec) :
    Except Unit ListResp :=
  (annotate store).map fun ann =>
    let page := max req.page 1
    let limit := min (max req.limit 1) 500
    let matched := pipelineMatched cfg req.chat_id req.start req.stop req.q ann
    let sorted := sortByLe timeDescLe matched
    let projected := sorted.map projectItem
    let data := (projected.drop ((page - 1) * limit)).take limit
    let total := projected.length
    { total := total, page := page, pages := (total + limit - 1) / limit,
      limit := limit, data := data }

/-- One row of the category summary. -/
structure StatRow where
  category : String
  total : Rat
  count : Nat
  deriving Repr, DecidableEq

/-- `GET /api/stats/category`: same filter prefix (without free text),
then group by category (missing folded to "Uncategorized"), sum and
count, sorted by total descending. -/
def statsExec (cfg : Option Int) (reqChat start stop : Option Int)
    (store : List Rec) : Except Unit (List StatRow) :=
  (annotate store).map fun ann =>
    let matched := pipelineMatched cfg reqChat start stop "" ann
    let cats := (matched.map fun p => p.1.category).dedup
    let rows := cats.map fun c =>
      let grp := matched.filter fun p => p.1.category == c
      { category := c.getD "Uncategorized",
        total := (grp.map fun p => p.1.amount).sum,
        count := grp.length }
    sortByLe (fun a b => b.total ≤ a.total) rows

/-! ## Mutating routes -/

/-- Distinct failure kinds of the routes: validation failures answer 4xx,
anything thrown (invalid dates, mongoose validation) answers 500. -/
inductive RouteErr where
  | badRequest
  | serverErr
  | notFound
  deriving Repr, DecidableEq

/-- Outcome of a mutating route: the store afterwards plus the result.
On every error the store is the input store (nothing was written). -/
structure RouteOut (α : Type) where
  store : List Rec
  result : Except RouteErr α

/-- Body of `POST /api/expenses`. -/
structure CreateBody where
  amount : Option Rat := none
  category : Option String := none
  payee : Option String := none
  note : Option String := none
  source : Option String := none
  time : Option String := none
  tz : Option String := none
  chat_id : Option Int := none

/-- JS `||`-style defaulting for an optional string field (empty string
is falsy). -/
def strOr (v : Option String) (dflt : String) : String :=
  match v with
  | some s => if s = "" then dflt else s
  | none => dflt

/-- `POST /api/expenses`: require truthy amount and time, build the
payload with mirrors, let mongoose validate (`min: 0` on `amount`), and
append.  An invalid `time` makes `toISOString()` throw (500). -/
def createExec (cfg : Option Int) (nowMs : Int) (b : CreateBody)
    (store : List Rec) : RouteOut Rec :=
  let amountTruthy := match b.amount with | some a => a != 0 | none => false
  let timeTruthy := match b.time with | some t => t != "" | none => false
  if !(amountTruthy && timeTruthy) then
    { store := store, result := .error .badRequest }
  else
    let amount := b.amount.getD 0
    match jsDateParse (b.time.getD "") with
    | none => { store := store, result := .error .serverErr }
    | some t =>
      let tzStr := strOr b.tz "Asia/Shanghai"
      let chat : Option Int :=
        if chatGuardActive cfg then cfg
        else match b.chat_id with
          | some c => if c ≠ 0 then some c else none
          | none => none
      let doc : Rec :=
        { amount := amount,
          category := some (strOr b.category "Uncategorized"),
          payee := some (strOr b.payee ""),
          note := some (strOr b.note ""),
          source := some (strOr b.source "web"),
          time := some (BVal.vDate t),
          chat_id := chat,
          ts_utc := some (BVal.vDate t),
          tz := some tzStr,
          time_local := some (BVal.vStr (formatTimeLocal t tzStr)),
          ym := some (ymOf t),
          created_at_utc := some (BVal.vDate nowMs),
          createdAt := some (BVal.vDate nowMs) }
      if doc.amount < 0 then { store := store, result := .error .serverErr }
      else { store := store ++ [doc], result := .ok doc }

/-- Body of `PATCH /api/expenses/:id` (a field is `some` when present in
the request body, i.e. `!== undefined`). -/
structure PatchBody where
  amount : Option Rat := none
  category : Option String := none
  payee : Option String := none
  note : Option String := none
  time : Option String := none
  tz : Option String := none

/-- Application of the `fields` object built by the PATCH route to one
document (`findByIdAndUpdate` performs a `$set`; mongoose runs **no**
schema validators on this path).  `Except.error` models the
`toISOString()` throw on an invalid `time`, which happens before any
write. -/
def patchApply (b : PatchBody) (r : Rec) : Except Unit Rec :=
  let r1 := match b.amount with
    | some a => { r with amount := a }
    | none => r
  let r2 := match b.category with
    | some c => { r1 with category := some (if c = "" then "Uncategorized" else c) }
    | none => r1
  let r3 := match b.payee with
    | some p => { r2 with payee := some p }
    | none => r2
  let r4 := match b.note with
    | some n => { r3 with note := some n }
    | none => r3
  match b.time with
  | none => .ok r4
  | some ts =>
    match jsDateParse ts with
    | none => .error ()
    | some t =>
      let tzStr := strOr b.tz "Asia/Shanghai"
      .ok { r4 with
        time := some (BVal.vDate t),
        ts_utc := some (BVal.vDate t),
        time_local := some (BVal.vStr (formatTimeLocal t tzStr)),
        tz := some tzStr,
        ym := some (ymOf t) }

/-- `PATCH /api/expenses/:id` over the store, the id being a position. -/
def patchExec (idx : Nat) (b : PatchBody) (store : List Rec) : RouteOut Rec :=
  match store[idx]? with
  | none => { store := store, result := .error .notFound }
  | some r =>
    match patchApply b r with
    | .error _ => { store := store, result := .error .serverErr }
    | .ok r2 => { store := store.set idx r2, result := .ok r2 }

/-- Body of `POST /api/expenses/parse`. -/
structure ParseBody where
  text : String
  tz : Option String := none
  chat_id : Option Int := none

/-- `POST /api/expenses/parse`: require non-blank text; take the AI
adapter's draft when it produced one, else fall back to
`parseTextHeuristic`; reject unless the amount is a finite non-zero
number (`Number(null)` is `0`); resolve the time via `combineDateTime`;
build the payload with mirrors and persist.  An invalid resolved time
makes `toISOString()` throw (500, nothing written); mongoose still
validates `min: 0` on create. -/
def parseExec (cfg : Option Int) (aiResult : Option Draft) (nowMs : Int)
    (b : ParseBody) (store : List Rec) : RouteOut (Rec × Draft) :=
  if jsTrim b.text = "" then { store := store, result := .error .badRequest }
  else
    let parsed := match aiResult with
      | some d => d
      | none => parseTextHeuristic b.text
    let tzStr := strOr b.tz "Asia/Shanghai"
    let amount : Rat := parsed.amount.getD 0
    if amount = 0 then { store := store, result := .error .badRequest }
    else
      let payee := parsed.payee
      let note := if parsed.note = "" then b.text else parsed.note
      let category :=
        if parsed.category = "" then guessCategory payee note else parsed.category
      match combineDateTime nowMs tzStr (jsTrim (parsed.time.getD "")) with
      | none => { store := store, result := .error .serverErr }
      | some t =>
        let chat : Option Int :=
          if chatGuardActive cfg then cfg
          else match b.chat_id with
            | some c => if c ≠ 0 then some c else none
            | none => none
        let doc : Rec :=
          { amount := amount,
            category := some (if category = "" then "Uncategorized" else category),
            payee := some payee,
            note := some note,
            source := some "web",
            time := some (BVal.vDate t),
            chat_id := chat,
            ts_utc := some (BVal.vDate t),
            tz := some tzStr,
            time_local := some (BVal.vStr (formatTimeLocal t tzStr)),
            ym := some (ymOf t),
            created_at_utc := some (BVal.vDate nowMs),
            createdAt := some (BVal.vDate nowMs) }
        if doc.amount < 0 then { store := store, result := .error .serverErr }
        else { store := store ++ [doc], result := .ok (doc, parsed) }

/-! ## Helper lemmas -/

/-- Every category that can appear among the keyword-match hits is listed
in the priority order. -/
theorem keys_subset_priority :
    ∀ p ∈ CATEGORY_KEYWORDS, p.1 ∈ CATEGORY_PRIORITY := by
  decide

/-- A hit of `categoryHits` is a key of the keyword table. -/
theorem categoryHits_mem_priority {text c} (h : c ∈ categoryHits text) :
    c ∈ CATEGORY_PRIORITY := by
  rcases List.mem_filterMap.1 h with ⟨ck, hmem, hck⟩
  by_cases hc : ck.2.any (fun kw => jsIncludes text (jsToLower kw))
  · simp only [hc, if_pos] at hck
    cases hck
    exact keys_subset_priority ck hmem
  · simp [hc] at hck

/-- `List.find?` returns the earliest satisfying element: its index is
minimal among all satisfying elements. -/
theorem find?_indexOf_le {p : String → Bool} :
    ∀ {l : List String} {a : String}, l.find? p = some a →
      ∀ c ∈ l, p c = true → l.indexOf a ≤ l.indexOf c := by
  intro l
  induction l with
  | nil => intro a h; simp at h
  | cons x t ih =>
    intro a h c hc hpc
    rw [List.find?_cons] at h
    by_cases hx : p x
    · simp only [hx, cond_true] at h
      cases h
      rw [List.indexOf_cons_self]
      exact Nat.zero_le _
    · simp only [hx, cond_false] at h
      have hax : x ≠ a := by
        intro he
        rw [he] at hx
        rw [List.find?_some h] at hx
        exact hx rfl
      have hcx : x ≠ c := by
        intro he
        rw [he] at hx
        rw [hpc] at hx
        exact hx rfl
      rw [List.indexOf_cons_ne _ hax, List.indexOf_cons_ne _ hcx]
      rcases List.mem_cons.1 hc with he | hc2
      · exact absurd he.symm hcx
      · exact Nat.succ_le_succ (ih h c hc2 hpc)

/-! ## C8 — category classifier -/

/-- C8: the Category Classifier is pure and total (a Lean function); when
several categories' keyword sets match, the fixed priority order picks
the first matching candidate (the result is a hit of minimal priority
index); when no keyword set matches, the transfer special case applies
and otherwise the sentinel "其他" ("other") is returned; "星巴克" with no
transfer keyword yields the dining category "餐饮"; text hitting both the
transfer and a lower-priority (shopping) keyword set yields "转账". -/
theorem guessCategory_priority_spec :
    (∀ payee note,
      (categoryHits (jsToLower (payee ++ " " ++ note)) ≠ [] →
        guessCategory payee note ∈ categoryHits (jsToLower (payee ++ " " ++ note)) ∧
        ∀ c ∈ categoryHits (jsToLower (payee ++ " " ++ note)),
          CATEGORY_PRIORITY.indexOf (guessCategory payee note) ≤
            CATEGORY_PRIORITY.indexOf c) ∧
      (categoryHits (jsToLower (payee ++ " " ++ note)) = [] →
        guessCategory payee note =
          if jsIncludes (jsToLower (payee ++ " " ++ note)) "转账" ||
             jsIncludes (jsToLower (payee ++ " " ++ note)) "收款"
          then "转账" else "其他")) ∧
    guessCategory "" "星巴克" = "餐饮" ∧
    guessCategory "" "待确认收款 超市" = "转账" ∧
    guessCategory "" "红包" = "转账" ∧
    guessCategory "" "hello" = "其他" := by
  refine ⟨?_, by decide, by decide, by decide, by decide⟩
  intro payee note
  constructor
  · intro hne
    rcases hl : categoryHits (jsToLower (payee ++ " " ++ note)) with _ | ⟨h0, t0⟩
    · exact absurd hl hne
    rcases hfind : CATEGORY_PRIORITY.find? (fun c => (h0 :: t0).contains c)
        with _ | c
    · exfalso
      have hmem0 : h0 ∈ categoryHits (jsToLower (payee ++ " " ++ note)) := by
        rw [hl]
        exact List.mem_cons_self _ _
      have := List.find?_eq_none.1 hfind h0 (categoryHits_mem_priority hmem0)
      simp at this
    · have hg : guessCategory payee note = c := by
        simp only [guessCategory]
        rw [hl]
        simp only [hfind]
      rw [hg]
      constructor
      · have hcont := List.find?_some hfind
        simpa [List.contains, List.elem_iff] using hcont
      · intro d hd
        refine find?_indexOf_le hfind d
          (categoryHits_mem_priority (by rw [hl]; exact hd)) ?_
        simpa [List.contains, List.elem_iff] using hd
  · intro hnil
    simp only [guessCategory]
    rw [hnil]

/-- C8 witness: at the concrete input "星巴克" the hit list is non-empty
and the classifier's result is one of the hits. -/
theorem guessCategory_priority_spec_witness :
    guessCategory "" "星巴克" ∈ categoryHits (jsToLower ("" ++ " " ++ "星巴克")) :=
  ((guessCategory_priority_spec.1 "" "星巴克").1 (by decide)).1

/-! ## C9 — heuristic field extractor -/

/-- C9: on `"买菜 45.5 超市 18:30"` the extractor yields amount `45.5`, the
time string `"18:30"`, and a non-empty note equal to the input; and on
every input the draft's note is the original (trimmed) text verbatim. -/
theorem parseTextHeuristic_spec :
    (parseTextHeuristic "买菜 45.5 超市 18:30").amount = some (45.5 : Rat) ∧
    (parseTextHeuristic "买菜 45.5 超市 18:30").time = some "18:30" ∧
    (parseTextHeuristic "买菜 45.5 超市 18:30").note = "买菜 45.5 超市 18:30" ∧
    (parseTextHeuristic "买菜 45.5 超市 18:30").note ≠ "" ∧
    ∀ text, (parseTextHeuristic text).note = jsTrim text := by
  refine ⟨rfl, by decide, by decide, by decide, fun text => rfl⟩

/-! ## C1 — canonical-instant resolution -/

/-- C1 counterexample: on a record whose `time` is the unparseable string
`"hello"` (and which even has a perfectly good `ts_utc` date), the
`_time` expression reaches the bare `$toDate` and the aggregation
errors: resolution neither falls through to `ts_utc` nor yields null,
refuting "an unparseable string never makes resolution fail". -/
theorem resolveTime_unparseable_string_errors :
    resolveTime { amount := 1, time := some (BVal.vStr "hello"),
                  ts_utc := some (BVal.vDate 123) } = .error () ∧
    (Except.error () : Except Unit (Option Int)) ≠ .ok (some 123) ∧
    (Except.error () : Except Unit (Option Int)) ≠ .ok none := by
  refine ⟨rfl, by simp, by simp⟩

/-- C1 (amended): the first-match-wins precedence of `_time` resolution —
`time` as a date; else `time` as a string tried against `%Y-%m-%d %H:%M`,
then `%Y/%m/%d, %H:%M`, then the generic conversion **which errors (rather
than falling through or yielding null) on a string none of the three can
parse**; else `ts_utc` as a date; else `created_at_utc` as a date; else
`time_local` as a wall-clock string in the record's `tz` (default
Asia/Shanghai), unparseable strings yielding null here; else `createdAt`
as a date; else null. -/
theorem resolveTime_precedence :
    ∀ r : Rec,
      (∀ ms, r.time = some (BVal.vDate ms) → resolveTime r = .ok (some ms)) ∧
      (∀ s, r.time = some (BVal.vStr s) →
        resolveTime r =
          (match dateFromFmt1 s with
           | some ms => .ok (some ms)
           | none =>
             match dateFromFmt2 s with
             | some ms => .ok (some ms)
             | none =>
               match toDateString s with
               | some ms => .ok (some ms)
               | none => .error ())) ∧
      (r.time = none → ∀ ms, r.ts_utc = some (BVal.vDate ms) →
        resolveTime r = .ok (some ms)) ∧
      (r.time = none → r.ts_utc = none → ∀ ms,
        r.created_at_utc = some (BVal.vDate ms) → resolveTime r = .ok (some ms)) ∧
      (r.time = none → r.ts_utc = none → r.created_at_utc = none →
        ∀ s, r.time_local = some (BVal.vStr s) →
          resolveTime r = .ok
            (match dateFromFmt1Tz s (r.tz.getD "Asia/Shanghai") with
             | some ms => some ms
             | none => dateFromGenericTz s (r.tz.getD "Asia/Shanghai"))) ∧
      (r.time = none → r.ts_utc = none → r.created_at_utc = none →
        r.time_local = none → ∀ ms, r.createdAt = some (BVal.vDate ms) →
          resolveTime r = .ok (some ms)) ∧
      (r.time = none → r.ts_utc = none → r.created_at_utc = none →
        r.time_local = none → r.createdAt = none → resolveTime r = .ok none) := by
  intro r
  refine ⟨?_, ?_, ?_, ?_, ?_, ?_, ?_⟩
  · intro ms h
    simp [resolveTime, h]
  · intro s h
    simp only [resolveTime, h]
  · intro h1 ms h2
    simp [resolveTime, h1, h2]
  · intro h1 h2 ms h3
    simp [resolveTime, h1, h2, h3]
  · intro h1 h2 h3 s h4
    simp [resolveTime, h1, h2, h3, h4]
  · intro h1 h2 h3 h4 ms h5
    simp [resolveTime, h1, h2, h3, h4, h5]
  · intro h1 h2 h3 h4 h5
    simp [resolveTime, h1, h2, h3, h4, h5]

/-- C1 witness: the precedence theorem applied to concrete records — a
date-valued `time` is returned as-is, and a record lacking `time` with a
date-valued `ts_utc` resolves to `ts_utc`. -/
theorem resolveTime_precedence_witness :
    resolveTime { amount := 1, time := some (BVal.vDate 77) } = .ok (some 77) ∧
    resolveTime { amount := 1, ts_utc := some (BVal.vDate 123) } = .ok (some 123) :=
  ⟨(resolveTime_precedence _).1 77 rfl,
   (resolveTime_precedence _).2.2.1 rfl 123 rfl⟩

/-! ## C4 — time-string composition -/

/-- C4 counterexample: `combineDateTime` on the unparseable string
`"hello"` returns JS Invalid Date (`none`), **not** the current instant:
`new Date("hello")` yields an invalid value without throwing, so the
catch that would return "now" never fires.  This refutes "for every
unparseable input the result falls back to the current instant rather
than an error or an invalid value". -/
theorem combineDateTime_invalid_not_now :
    combineDateTime 1760000000000 "Asia/Shanghai" "hello" = none ∧
    (none : Option Int) ≠ some 1760000000000 := by
  exact ⟨rfl, by simp⟩

/-- C4 (amended): time-string composition is total (a Lean function that
never propagates an error) and: an absent string yields the current
instant; a bare `HH:MM` is anchored to "today" in the given zone and the
combined local string is parsed (an unknown zone making `Intl` throw is
caught and yields "now"); any other string is parsed as-is — and when
that parse fails the result is the **Invalid Date value** (`none`),
not the current instant. -/
theorem combineDateTime_spec :
    ∀ (nowMs : Int) (tz timeStr : String),
      (timeStr = "" → combineDateTime nowMs tz timeStr = some nowMs) ∧
      (∀ off, isBareHM timeStr = true →
        tzOffsetMin (if tz = "" then "Asia/Shanghai" else tz) = some off →
        combineDateTime nowMs tz timeStr =
          jsDateParse (jsReplaceFirst (todayInZone nowMs off ++ " " ++ timeStr) '/' '-')) ∧
      (isBareHM timeStr = true →
        tzOffsetMin (if tz = "" then "Asia/Shanghai" else tz) = none →
        combineDateTime nowMs tz timeStr = some nowMs) ∧
      (timeStr ≠ "" → isBareHM timeStr = false →
        combineDateTime nowMs tz timeStr = jsDateParse (jsReplaceFirst timeStr '/' '-')) ∧
      (timeStr ≠ "" → isBareHM timeStr = false →
        jsDateParse (jsReplaceFirst timeStr '/' '-') = none →
        combineDateTime nowMs tz timeStr = none) := by
  intro nowMs tz timeStr
  refine ⟨?_, ?_, ?_, ?_, ?_⟩
  · intro h
    simp [combineDateTime, h]
  · intro off hbare hoff
    by_cases he : timeStr = ""
    · rw [he] at hbare
      simp [isBareHM] at hbare
    · simp [combineDateTime, he, hbare, hoff]
  · intro hbare hoff
    by_cases he : timeStr = ""
    · simp [combineDateTime, he]
    · simp [combineDateTime, he, hbare, hoff]
  · intro he hbare
    simp [combineDateTime, he, hbare]
  · intro he hbare hparse
    simp [combineDateTime, he, hbare, hparse]

/-- C4 witness: the amended composition theorem applied at concrete
inputs — empty string gives "now"; a bare `"18:30"` in Asia/Shanghai is
anchored to that zone's "today" and parses; `"2025-08-12 10:00"` parses
as-is. -/
theorem combineDateTime_spec_witness :
    combineDateTime 1760000000000 "Asia/Shanghai" "" = some 1760000000000 ∧
    combineDateTime 1760000000000 "Asia/Shanghai" "18:30" =
      jsDateParse (jsReplaceFirst (todayInZone 1760000000000 480 ++ " " ++ "18:30") '/' '-') ∧
    combineDateTime 1760000000000 "Asia/Shanghai" "2025-08-12 10:00" =
      jsDateParse (jsReplaceFirst "2025-08-12 10:00" '/' '-') :=
  ⟨(combineDateTime_spec 1760000000000 "Asia/Shanghai" "").1 rfl,
   (combineDateTime_spec 1760000000000 "Asia/Shanghai" "18:30").2.1 480 (by decide) (by decide),
   (combineDateTime_spec 1760000000000 "Asia/Shanghai" "2025-08-12 10:00").2.2.2.1
     (by decide) (by decide)⟩

/-! ## C5 — partial update frame and mirror recomputation -/

/-- C5: a partial update whose changed-field set does not include `time`
leaves `time`, `ts_utc`, `time_local`, `tz` and `ym` unchanged; an update
that includes a (parseable) `time` recomputes all four mirrors together
from the new instant and the zone in effect, so after the write `ts_utc`
equals `time` and `time_local`/`ym` are the zone formatting and UTC
year-month of the new value. -/
theorem patchApply_frame_and_mirrors :
    ∀ (r : Rec) (b : PatchBody),
      (b.time = none → ∃ r2, patchApply b r = .ok r2 ∧
        r2.time = r.time ∧ r2.ts_utc = r.ts_utc ∧ r2.time_local = r.time_local ∧
        r2.tz = r.tz ∧ r2.ym = r.ym) ∧
      (∀ ts t, b.time = some ts → jsDateParse ts = some t →
        ∃ r2, patchApply b r = .ok r2 ∧
          r2.time = some (BVal.vDate t) ∧
          r2.ts_utc = some (BVal.vDate t) ∧
          r2.tz = some (strOr b.tz "Asia/Shanghai") ∧
          r2.time_local = some (BVal.vStr (formatTimeLocal t (strOr b.tz "Asia/Shanghai"))) ∧
          r2.ym = some (ymOf t)) := by
  intro r b
  rcases b with ⟨ba, bc, bp, bn, bt, btz⟩
  constructor
  · rintro rfl
    cases ba <;> cases bc <;> cases bp <;> cases bn <;>
      exact ⟨_, rfl, rfl, rfl, rfl, rfl, rfl⟩
  · rintro ts t rfl hp
    cases ba <;> cases bc <;> cases bp <;> cases bn <;>
      · simp only [patchApply, hp]
        exact ⟨_, rfl, rfl, rfl, rfl, rfl, rfl⟩

/-- C5 witness: the frame/mirror theorem applied to a concrete record —
a category-only update leaves all five time fields untouched, and a
`time` update rewrites the mirrors from the parsed instant. -/
theorem patchApply_frame_and_mirrors_witness :
    (∃ r2, patchApply { category := some "餐饮" }
        { amount := 10, time := some (BVal.vDate 5), ts_utc := some (BVal.vDate 5),
          time_local := some (BVal.vStr "x"), tz := some "UTC",
          ym := some "1970-01" } = .ok r2 ∧
      r2.time = some (BVal.vDate 5) ∧ r2.ts_utc = some (BVal.vDate 5) ∧
      r2.time_local = some (BVal.vStr "x") ∧ r2.tz = some "UTC" ∧
      r2.ym = some "1970-01") ∧
    (∃ r2, patchApply { time := some "2025-08-12 10:00" } { amount := 10 } = .ok r2 ∧
      r2.time = some (BVal.vDate 1754992800000) ∧
      r2.ts_utc = some (BVal.vDate 1754992800000) ∧
      r2.tz = some (strOr none "Asia/Shanghai") ∧
      r2.time_local = some (BVal.vStr (formatTimeLocal 1754992800000 (strOr none "Asia/Shanghai"))) ∧
      r2.ym = some (ymOf 1754992800000)) := by
  constructor
  · have h := (patchApply_frame_and_mirrors
      { amount := 10, time := some (BVal.vDate 5), ts_utc := some (BVal.vDate 5),
        time_local := some (BVal.vStr "x"), tz := some "UTC", ym := some "1970-01" }
      { category := some "餐饮" }).1 rfl
    simpa using h
  · exact (patchApply_frame_and_mirrors { amount := 10 }
      { time := some "2025-08-12 10:00" }).2 "2025-08-12 10:00" 1754992800000 rfl (by decide)

/-! ## C3 — non-negative amount invariant -/

/-- C3 (code bug): the schema declares `amount: { min: 0, required }` and
the create path enforces it, but `findByIdAndUpdate` runs without
`runValidators`, so a partial update with a negative amount is accepted
and persisted.  Starting from a store built by an accepted create of
amount 10, the accepted patch `{ amount: -5 }` leaves the store holding
a record with `amount = -5 < 0`, violating the invariant. -/
theorem patchExec_persists_negative_amount :
    ((createExec none 0 { amount := some 10, time := some "2025-08-12 10:00" }
        []).result.toOption.map Rec.amount) = some (10 : Rat) ∧
    ((patchExec 0 { amount := some (-5) }
        (createExec none 0 { amount := some 10, time := some "2025-08-12 10:00" }
          []).store).result.toOption.map Rec.amount) = some (-5 : Rat) ∧
    ((patchExec 0 { amount := some (-5) }
        (createExec none 0 { amount := some 10, time := some "2025-08-12 10:00" }
          []).store).store.map Rec.amount) = [(-5 : Rat)] ∧
    ((-5 : Rat) < 0) := by
  refine ⟨by decide, by decide, by decide, by decide⟩

/-! ## C6 — parse-and-create rejects unparseable amounts -/

/-- C6: whenever the extraction result (the AI draft if present, else the
heuristic draft) carries an amount that is not a finite non-zero number
(`Number(null) = 0`, so a missing amount behaves as zero), the
parse-and-create route answers a validation failure and the store is
unchanged; in particular the heuristic extracts no amount from
"hello there". -/
theorem parseExec_rejects_unparseable_amount :
    (∀ cfg ai nowMs (b : ParseBody) (store : List Rec),
      (match ai with
       | some d => d
       | none => parseTextHeuristic b.text).amount.getD 0 = 0 →
      (parseExec cfg ai nowMs b store).store = store ∧
      (parseExec cfg ai nowMs b store).result = .error RouteErr.badRequest) ∧
    (parseTextHeuristic "hello there").amount = none := by
  refine ⟨?_, by decide⟩
  intro cfg ai nowMs b store h
  by_cases ht : jsTrim b.text = ""
  · constructor <;> simp [parseExec, ht]
  · constructor <;> simp [parseExec, ht, h]

/-- C6 witness: at the concrete request text "hello there" (no AI
configured) the route rejects with a validation failure and the store is
unchanged. -/
theorem parseExec_rejects_unparseable_amount_witness :
    (parseExec none none 0 { text := "hello there" } []).store = ([] : List Rec) ∧
    (parseExec none none 0 { text := "hello there" } []).result =
      .error RouteErr.badRequest :=
  parseExec_rejects_unparseable_amount.1 none none 0 { text := "hello there" } []
    (by decide)

/-! ## C2 — identity-scope enforcement vs request-supplied scope -/

/-- With the guard active and a request-supplied scope different from the
enforced one, the two `$match` stages are both in the pipeline and no
document can satisfy both, so the matched set is empty. -/
theorem pipelineMatched_conflict_empty
    (c rc : Int) (start stop : Option Int) (q : String) (ann : List Annotated)
    (hc : c ≠ 0) (hne : rc ≠ c) :
    pipelineMatched (some c) (some rc) start stop q ann = [] := by
  have key : ∀ p : Annotated,
      ((p.1.chat_id == some rc) && chatGuardMatch c p.1) = false := by
    intro p
    rcases hch : p.1.chat_id with _ | d
    · simp [chatGuardMatch, hch]
    · by_cases hd : d = rc
      · subst hd
        simp [chatGuardMatch, hch, hne]
      · simp [chatGuardMatch, hch, hd]
  have hact : chatGuardActive (some c) = true := by simp [chatGuardActive, hc]
  have h2 : ((ann.filter fun p => chatGuardMatch ((some c).getD 0) p.1).filter
      fun p => p.1.chat_id == some rc) = [] := by
    rw [List.filter_filter, List.filter_eq_nil_iff]
    intro p hp
    simp only [Option.getD_some]
    simp [key p]
  simp only [pipelineMatched]
  rw [hact, if_pos (rfl : (true : Bool) = true), h2]
  split <;> simp

/-- C2 counterexample: with enforced scope 1 and a store holding one
record of scope 1, a List request supplying scope 2 returns no records,
while the same request without a scope returns that record — the
request-supplied scope is combined with (not overridden by) the guard,
refuting "the result set is the same as if the request had supplied no
scope". -/
theorem listExec_request_scope_not_ignored :
    ((listExec (some 1) { chat_id := some 2 }
        [{ amount := 1, chat_id := some 1, time := some (BVal.vDate 0) }]).toOption.map
      (fun resp => resp.data.length)) = some 0 ∧
    ((listExec (some 1) { }
        [{ amount := 1, chat_id := some 1, time := some (BVal.vDate 0) }]).toOption.map
      (fun resp => resp.data.length)) = some 1 ∧
    (some 0 : Option Nat) ≠ some 1 := by
  refine ⟨by decide, by decide, by decide⟩

/-- C2 (amended): when a server-enforced scope is active, a List request
supplying a **different** scope value has both match stages applied in
conjunction — the request-supplied value is intersected with, not
ignored; since no record can match both scopes, the result set is empty
with total 0 (not the enforced-scope result set). -/
theorem listExec_conflicting_scope_empty :
    ∀ (c rc : Int) (req : ListReq) (store : List Rec) (ann : List Annotated),
      c ≠ 0 → rc ≠ c → req.chat_id = some rc → annotate store = .ok ann →
      ∃ resp, listExec (some c) req store = .ok resp ∧
        resp.data = [] ∧ resp.total = 0 := by
  intro c rc req store ann hc hne hreq hann
  rw [listExec, hann]
  refine ⟨_, rfl, ?_, ?_⟩
  · simp only [hreq, pipelineMatched_conflict_empty c rc req.start req.stop req.q ann hc hne]
    simp [sortByLe]
  · simp only [hreq, pipelineMatched_conflict_empty c rc req.start req.stop req.q ann hc hne]
    simp [sortByLe]

/-- C2 witness: the amended theorem at enforced scope 1, request scope 2,
on a one-record store of scope 1. -/
theorem listExec_conflicting_scope_empty_witness :
    ∃ resp, listExec (some 1) { chat_id := some 2 }
        [{ amount := 1, chat_id := some 1, time := some (BVal.vDate 0) }] = .ok resp ∧
      resp.data = [] ∧ resp.total = 0 :=
  listExec_conflicting_scope_empty 1 2 { chat_id := some 2 }
    [{ amount := 1, chat_id := some 1, time := some (BVal.vDate 0) }]
    [({ amount := 1, chat_id := some 1, time := some (BVal.vDate 0) }, some 0)]
    (by decide) (by decide) rfl rfl

/-! ## C10 — scope-less records pass the enforced-scope guard -/

/-- C10: the enforced-scope guard stage matches records whose `chat_id`
equals the enforced value **or is absent**; consequently, for a record
with no `chat_id` and a request supplying no scope, membership in the
shared List/Category-summary filter pipeline is the same with the
enforcement active as with it off — scope-less legacy records are never
filtered out by scope enforcement. -/
theorem chatGuard_keeps_scopeless :
    ∀ (c : Int) (r : Rec) (t : Option Int) (start stop : Option Int) (q : String)
      (ann : List Annotated),
      c ≠ 0 → r.chat_id = none →
      chatGuardMatch c r = true ∧
      ((r, t) ∈ pipelineMatched (some c) none start stop q ann ↔
        (r, t) ∈ pipelineMatched none none start stop q ann) := by
  intro c r t start stop q ann hc hnone
  have hguard : chatGuardMatch c r = true := by simp [chatGuardMatch, hnone]
  refine ⟨hguard, ?_⟩
  have hact : chatGuardActive (some c) = true := by simp [chatGuardActive, hc]
  have hoff : chatGuardActive none = false := by simp [chatGuardActive]
  simp only [pipelineMatched, hact, hoff, if_pos, if_neg, Bool.false_eq_true,
    not_false_iff, Option.getD_some]
  by_cases hs : (start.isSome || stop.isSome) = true <;>
    by_cases hq : jsTrim q ≠ "" <;>
      simp [hs, hq, List.mem_filter, hguard]

/-- C10 witness: a record with no `chat_id` passes the guard for the
enforced scope 5 and its pipeline membership is unaffected by the
enforcement. -/
theorem chatGuard_keeps_scopeless_witness :
    chatGuardMatch 5 { amount := 1 } = true ∧
    ((({ amount := 1 } : Rec), (some 0 : Option Int)) ∈
        pipelineMatched (some 5) none none none "" [(({ amount := 1 } : Rec), some 0)] ↔
      (({ amount := 1 } : Rec), (some 0 : Option Int)) ∈
        pipelineMatched none none none none "" [(({ amount := 1 } : Rec), some 0)]) :=
  chatGuard_keeps_scopeless 5 { amount := 1 } (some 0) none none ""
    [({ amount := 1 }, some 0)] (by decide) rfl

/-! ## C7 — pagination -/

/-- Inserting one element grows the length by one. -/
theorem length_insertByLe {α : Type} (le : α → α → Bool) (x : α) :
    ∀ l : List α, (insertByLe le x l).length = l.length + 1 := by
  intro l
  induction l with
  | nil => rfl
  | cons y t ih =>
    simp only [insertByLe]
    split
    · simp
    · simp [ih]

/-- The `$sort` model is length-preserving. -/
theorem length_sortByLe {α : Type} (le : α → α → Bool) :
    ∀ l : List α, (sortByLe le l).length = l.length := by
  intro l
  induction l with
  | nil => rfl
  | cons x t ih =>
    simp only [sortByLe]
    rw [length_insertByLe, ih]
    simp

/-- Arithmetic of the last page: with `P = ⌈N/L⌉`, the page is positive,
the records before it fill `(P-1)·L` slots leaving exactly
`N mod L` (or `L` when `L` divides `N`) for page `P`, and `P·L` covers
the whole collection. -/
theorem ceil_div_bounds (N L : Nat) (hL : 0 < L) (hN : 0 < N) :
    0 < (N + L - 1) / L ∧
    ((N + L - 1) / L - 1) * L + (if N % L = 0 then L else N % L) = N ∧
    N ≤ ((N + L - 1) / L) * L := by
  have hmod := Nat.div_add_mod N L
  have hrL : N % L < L := Nat.mod_lt _ hL
  by_cases hr : N % L = 0
  · have hNq : N = L * (N / L) := by omega
    have hq1 : 1 ≤ N / L := by
      rcases Nat.eq_zero_or_pos (N / L) with h0 | h1
      · rw [h0, Nat.mul_zero] at hNq
        omega
      · exact h1
    have hP : (N + L - 1) / L = N / L := by
      have h1 : N + L - 1 = L * (N / L) + (L - 1) := by omega
      rw [h1, Nat.mul_add_div hL, Nat.div_eq_of_lt (show L - 1 < L by omega),
        Nat.add_zero]
    rw [hP, hr, if_pos rfl]
    have e1 : (N / L - 1) * L = N / L * L - 1 * L := Nat.sub_mul _ _ _
    rw [Nat.one_mul] at e1
    have e2 : L ≤ N / L * L := by
      calc L = 1 * L := (Nat.one_mul L).symm
      _ ≤ N / L * L := Nat.mul_le_mul_right L hq1
    have e3 : N = N / L * L := by rw [Nat.mul_comm] at hNq; exact hNq
    refine ⟨hq1, ?_, ?_⟩ <;> omega
  · have hP : (N + L - 1) / L = N / L + 1 := by
      have h1 : N + L - 1 = L * (N / L) + (N % L + (L - 1)) := by omega
      rw [h1, Nat.mul_add_div hL]
      have he3 : (N % L + (L - 1)) / L = 1 :=
        Nat.div_eq_of_lt_le (by omega) (by omega)
      rw [he3]
    rw [hP, if_neg hr]
    have e4 : (N / L + 1 - 1) * L = N / L * L := by simp
    have e5 : (N / L + 1) * L = N / L * L + L := by rw [Nat.add_mul, Nat.one_mul]
    have e6 : L * (N / L) = N / L * L := Nat.mul_comm _ _
    refine ⟨Nat.succ_pos _, ?_, ?_⟩ <;> omega

/-- Running the list route under a successful `addParsedTimeStage`
produces exactly the faceted response record. -/
theorem listExec_eq (cfg : Option Int) (req : ListReq) (store : List Rec)
    (ann : List Annotated) (hann : annotate store = .ok ann) :
    listExec cfg req store = .ok
      { total := ((sortByLe timeDescLe
            (pipelineMatched cfg req.chat_id req.start req.stop req.q ann)).map
            projectItem).length,
        page := max req.page 1,
        pages := (((sortByLe timeDescLe
            (pipelineMatched cfg req.chat_id req.start req.stop req.q ann)).map
            projectItem).length + min (max req.limit 1) 500 - 1) /
          min (max req.limit 1) 500,
        limit := min (max req.limit 1) 500,
        data := (((sortByLe timeDescLe
            (pipelineMatched cfg req.chat_id req.start req.stop req.q ann)).map
            projectItem).drop ((max req.page 1 - 1) * min (max req.limit 1) 500)).take
          (min (max req.limit 1) 500) } := by
  rw [listExec, hann]
  rfl

/-- C7: with `N` matching records and page size `1 ≤ L ≤ 500`, page
`⌈N/L⌉` carries exactly `N mod L` records (`L` when `L` divides `N`),
page `⌈N/L⌉ + 1` carries none, and both responses report the same total
`N`, computed independently of the page window. -/
theorem listExec_pagination :
    ∀ (cfg : Option Int) (req : ListReq) (store : List Rec)
      (ann : List Annotated) (N : Nat),
      annotate store = .ok ann →
      N = (pipelineMatched cfg req.chat_id req.start req.stop req.q ann).length →
      1 ≤ req.limit → req.limit ≤ 500 → 0 < N →
      req.page = (N + req.limit - 1) / req.limit →
      (∃ resp, listExec cfg req store = .ok resp ∧ resp.total = N ∧
        resp.data.length =
          (if N % req.limit = 0 then req.limit else N % req.limit)) ∧
      (∃ resp, listExec cfg { req with page := req.page + 1 } store = .ok resp ∧
        resp.total = N ∧ resp.data = []) := by
  intro cfg req store ann N hann hN hl1 hl2 hNpos hpage
  obtain ⟨hP1, hPfill, hPcover⟩ := ceil_div_bounds N req.limit hl1 hNpos
  have hlen : ((sortByLe timeDescLe
      (pipelineMatched cfg req.chat_id req.start req.stop req.q ann)).map
      projectItem).length = N := by
    rw [List.length_map, length_sortByLe, hN]
  have hclampL : min (max req.limit 1) 500 = req.limit := by
    rw [Nat.max_eq_left hl1, Nat.min_eq_left hl2]
  have hpagePos : 1 ≤ req.page := by omega
  have hclampP : max req.page 1 = req.page := Nat.max_eq_left hpagePos
  constructor
  · refine ⟨_, listExec_eq cfg req store ann hann, ?_, ?_⟩
    · exact hlen
    · simp only [List.length_take, List.length_drop, hlen, hclampL, hclampP]
      rw [hpage]
      by_cases h0 : N % req.limit = 0
      · rw [if_pos h0]
        rw [if_pos h0] at hPfill
        omega
      · rw [if_neg h0]
        rw [if_neg h0] at hPfill
        have := Nat.mod_lt N hl1
        omega
  · have hreq2 : ({ req with page := req.page + 1 } : ListReq).chat_id = req.chat_id ∧
        ({ req with page := req.page + 1 } : ListReq).start = req.start ∧
        ({ req with page := req.page + 1 } : ListReq).stop = req.stop ∧
        ({ req with page := req.page + 1 } : ListReq).q = req.q ∧
        ({ req with page := req.page + 1 } : ListReq).limit = req.limit ∧
        ({ req with page := req.page + 1 } : ListReq).page = req.page + 1 :=
      ⟨rfl, rfl, rfl, rfl, rfl, rfl⟩
    refine ⟨_, listExec_eq cfg { req with page := req.page + 1 } store ann hann, ?_, ?_⟩
    · simpa using hlen
    · simp only [hreq2.1, hreq2.2.1, hreq2.2.2.1, hreq2.2.2.2.1, hreq2.2.2.2.2.1,
        hreq2.2.2.2.2.2, hlen, hclampL]
      have hmax2 : max (req.page + 1) 1 = req.page + 1 := Nat.max_eq_left (by omega)
      rw [hmax2]
      have hskip : N ≤ (req.page + 1 - 1) * req.limit := by
        rw [hpage]
        have : (N + req.limit - 1) / req.limit + 1 - 1 = (N + req.limit - 1) / req.limit := by
          omega
        rw [this]
        exact hPcover
      have hdrop : (((sortByLe timeDescLe
          (pipelineMatched cfg req.chat_id req.start req.stop req.q ann)).map
          projectItem).drop ((req.page + 1 - 1) * req.limit)) = [] :=
        List.drop_eq_nil_of_le (by rw [hlen]; exact hskip)
      rw [hdrop, List.take_nil]

/-- C7 witness: three matching records with page size 2 — page ⌈3/2⌉ = 2
holds the single remainder record and the total is 3. -/
theorem listExec_pagination_witness :
    ∃ resp, listExec none { page := 2, limit := 2 }
        [{ amount := 1, time := some (BVal.vDate 1) },
         { amount := 2, time := some (BVal.vDate 2) },
         { amount := 3, time := some (BVal.vDate 3) }] = .ok resp ∧
      resp.total = 3 ∧
      resp.data.length = (if 3 % 2 = 0 then 2 else 3 % 2) :=
  (listExec_pagination none { page := 2, limit := 2 }
    [{ amount := 1, time := some (BVal.vDate 1) },
     { amount := 2, time := some (BVal.vDate 2) },
     { amount := 3, time := some (BVal.vDate 3) }]
    [({ amount := 1, time := some (BVal.vDate 1) }, some 1),
     ({ amount := 2, time := some (BVal.vDate 2) }, some 2),
     ({ amount := 3, time := some (BVal.vDate 3) }, some 3)]
    3 rfl (by decide) (by decide) (by decide) (by decide) (by decide)).1
